import Mathlib

/-!
Verification of the StupiDownloader chunked parallel download engine.

The definitions below are shallow embeddings of the Rust sources:
`src/libs/mod.rs` (Downloader, Tracer, orchestrating `download`),
`src/libs/request/mod.rs` (`download`, `calculate_optimal_chunks`,
`get_total_size`, `calculate_chunk_ranges`, the merge consumer),
`src/request.rs` and `src/req.rs` (`download_with_control` variants),
and `src/libs/consts.rs` / `src/libs/request/consts.rs` (size tables).
Machine integers (Rust `u64`) are modelled as `Nat` with an explicit
`% 2 ^ 64` at the points where the Rust code can wrap.
Rust `String`s are modelled as `List Char`.
-/

namespace SD

/-- Constants from `src/libs/consts.rs` and `src/libs/request/consts.rs`. -/
def KB : Nat := 1024

def MB : Nat := 1048576

def GB : Nat := 1073741824

/-- `u64::MAX`. -/
def U64MAX : Nat := 2 ^ 64 - 1

/-- `2^64`, the wrap modulus of Rust `u64` arithmetic. -/
def U64 : Nat := 2 ^ 64

/-- `SIZE_TABLE` from `src/libs/consts.rs`, used by `Downloader::new`. -/
def SIZE_TABLE : List (Nat × Nat) :=
  [(128 * KB, 1), (512 * KB, 4), (MB, 8), (5 * MB, 32), (10 * MB, 64),
   (50 * MB, 256), (100 * MB, 384), (500 * MB, 512), (GB, 640),
   (5 * GB, 768), (10 * GB, 869), (U64MAX, 1024)]

/-- The local `SIZE_TABLE` inside `calculate_optimal_chunks`
(`src/libs/request/mod.rs`). -/
def OPT_SIZE_TABLE : List (Nat × Nat) :=
  [(MB, 1), (10 * MB, 2), (100 * MB, 4), (GB, 8), (10 * GB, 16), (U64MAX, 32)]

/-- The `find_map` of `Downloader::new` (`src/libs/mod.rs` lines 97-100):
first entry whose threshold `size` satisfies `size > total_size`.
`none` models the `unwrap` panicking. -/
def libsFindMap (total_size : Nat) : List (Nat × Nat) → Option Nat
  | [] => none
  | (size, num) :: rest =>
      if size > total_size then some num else libsFindMap total_size rest

/-- Chunk count chosen by `Downloader::new` when `Accept-Ranges: bytes`
is present. -/
def libs_total_chunk (total_size : Nat) : Option Nat :=
  libsFindMap total_size SIZE_TABLE

/-- The `find_map` of `calculate_optimal_chunks`
(`src/libs/request/mod.rs` lines 210-213): first entry whose threshold
`size` satisfies `total_size > size`. `none` models the `unwrap` panicking. -/
def optFindMap (total_size : Nat) : List (Nat × Nat) → Option Nat
  | [] => none
  | (size, chunks) :: rest =>
      if total_size > size then some chunks else optFindMap total_size rest

/-- `calculate_optimal_chunks` (`src/libs/request/mod.rs` lines 200-217):
table lookup, then `base_chunks.max(num_cpus::get()).min(64)`.
`none` models the `unwrap` panicking. -/
def calculate_optimal_chunks (total_size num_cpus : Nat) : Option Nat :=
  (optFindMap total_size OPT_SIZE_TABLE).map (fun base => min (max base num_cpus) 64)

/-- The byte range computed for chunk `i` inside `download`
(`src/libs/mod.rs` lines 146-149): `start = i * chunk_size`,
`end = total_size` for the last chunk and `(i+1) * chunk_size - 1` otherwise. -/
def libs_chunk_range (total_size chunk_size total_chunk i : Nat) : Nat × Nat :=
  (i * chunk_size, if i = total_chunk - 1 then total_size else (i + 1) * chunk_size - 1)

/-- All ranges produced by `download` in `src/libs/mod.rs`. -/
def libs_chunk_ranges (total_size chunk_size total_chunk : Nat) : List (Nat × Nat) :=
  (List.range total_chunk).map (libs_chunk_range total_size chunk_size total_chunk)

/-- `calculate_chunk_ranges` (`src/libs/request/mod.rs` lines 231-244):
uniform `chunk_size = total_size / num_chunks`, last chunk ends at
`total_size - 1`. -/
def calculate_chunk_ranges (total_size num_chunks : Nat) : List (Nat × Nat) :=
  (List.range num_chunks).map (fun i =>
    (i * (total_size / num_chunks),
     if i = num_chunks - 1 then total_size - 1
     else (i + 1) * (total_size / num_chunks) - 1))

/-- A write of `data` into `file` at byte offset `pos` (zero-filling any gap),
the semantics of seeking to `pos` and writing `data` on a file handle. -/
def writeAt (file : List Nat) (pos : Nat) (data : List Nat) : List Nat :=
  file.take pos ++ List.replicate (pos - file.length) 0 ++ data ++
    file.drop (pos + data.length)

/-- The merge consumer of `download` in `src/libs/request/mod.rs`
(lines 98-114): for each `(id, path)` received from the channel, in arrival
(completion) order, a merge task opens the output file afresh, reads
`stream_position()` (which is 0 for a freshly opened non-append handle),
seeks there, and copies the chunk's bytes. Each arrival is a pair of the
chunk index and the chunk's bytes; the output starts empty. -/
def merge_tasks (arrivals : List (Nat × List Nat)) : List Nat :=
  arrivals.foldl (fun out a => writeAt out 0 a.2) []

/-- `Tracer` from `src/libs/mod.rs`: an atomic byte counter plus the total. -/
structure Tracer where
  counter : Nat
  total_size : Nat
deriving DecidableEq

/-- `Tracer::new` (`src/libs/mod.rs` lines 48-53). -/
def Tracer.new (total_size : Nat) : Tracer := ⟨0, total_size⟩

/-- `Tracer::update` (`src/libs/mod.rs` lines 55-58): `fetch_add` of the
buffer's byte length, wrapping as `u64` does. -/
def Tracer.update (t : Tracer) (len : Nat) : Tracer :=
  ⟨(t.counter + len) % U64, t.total_size⟩

/-- `Tracer::progress` (`src/libs/mod.rs` lines 60-62):
`counter * 100 / total_size` in `u64` arithmetic, with no clamping. -/
def Tracer.progress (t : Tracer) : Nat :=
  t.counter * 100 % U64 / t.total_size

/-- `Tracer::running` (`src/libs/mod.rs` lines 64-66). -/
def Tracer.running (t : Tracer) : Bool :=
  t.counter < t.total_size

/-- A sequence of worker delta contributions applied to a tracer. -/
def Tracer.run (t : Tracer) (deltas : List Nat) : Tracer :=
  deltas.foldl Tracer.update t

/-- `DownloadError` from `src/libs/mod.rs`, with each variant's
`thiserror` display payload. Messages are modelled as `List Char`. -/
inductive LibsError where
  | httpRequest (msg : List Char)
  | invalidResponse
  | ioErr (msg : List Char)
  | chunkStatus (index : Nat) (status : List Char)
  | chunkFailure (msg : List Char)
  | joinErr (msg : List Char)
deriving DecidableEq

/-- Display prefix of `LibsError.httpRequest`. -/
def msgHttp : List Char := "HTTP request failed: ".data

/-- Display text of `LibsError.invalidResponse`. -/
def msgInvalid : List Char := "Invalid Response Header".data

/-- Display prefix of `LibsError.ioErr`. -/
def msgIoPre : List Char := "File operation failed: ".data

/-- Leading part of the `LibsError.chunkStatus` display (a tab, then the word). -/
def msgChunkPre : List Char := "\tChunk ".data

/-- Middle part of the `LibsError.chunkStatus` display. -/
def msgChunkMid : List Char := " failed: ".data

/-- Display prefix of `LibsError.chunkFailure`. -/
def msgChunkFail : List Char := "Chunk download failed:\n".data

/-- Display prefix of `LibsError.joinErr`. -/
def msgJoinPre : List Char := "Task join failed: ".data

/-- The `Display` rendering of `DownloadError` in `src/libs/mod.rs`
(the `#[error(...)]` attributes, lines 20-39). -/
def LibsError.render : LibsError → List Char
  | LibsError.httpRequest m => msgHttp ++ m
  | LibsError.invalidResponse => msgInvalid
  | LibsError.ioErr m => msgIoPre ++ m
  | LibsError.chunkStatus i s => msgChunkPre ++ (Nat.repr i).data ++ msgChunkMid ++ s
  | LibsError.chunkFailure m => msgChunkFail ++ m
  | LibsError.joinErr m => msgJoinPre ++ m

/-- The error aggregation of `download` in `src/libs/mod.rs` (lines 177-182):
each worker result is `none` (Ok) or `some e`; the failures' rendered messages
are concatenated (`collect::<String>()`). -/
def collect_errors (rs : List (Option LibsError)) : List Char :=
  ((rs.filterMap id).map LibsError.render).foldl (fun x y => x ++ y) []

/-- The final result of `download` in `src/libs/mod.rs` (lines 184-187):
Ok when the concatenated error string is empty, otherwise a single
`ChunkFailure` carrying it. -/
def libs_download_result (rs : List (Option LibsError)) : Except LibsError Unit :=
  if collect_errors rs = [] then Except.ok ()
  else Except.error (LibsError.chunkFailure (collect_errors rs))

/-- A mid-stream body failure in the worker closure of `download`
(`src/libs/mod.rs` lines 162-167): `let chunk = chunk?` propagates the reqwest
error as `HttpRequest(e)`. The closure knows the chunk index `i`, but the
produced error value does not depend on it. -/
def libs_worker_stream_error (_i : Nat) (msg : List Char) : LibsError :=
  LibsError.httpRequest msg

/-- `TaskState` from `src/request.rs`. -/
inductive TaskStateR where
  | running
  | paused
deriving DecidableEq

/-- `TaskState` from `src/req.rs`. -/
inductive TaskStateQ where
  | running (progress : Nat)
  | paused
  | finished
  | error (msg : List Char)
deriving DecidableEq

/-- The pause checkpoint of `download_with_control` in `src/request.rs`
(lines 109-121): `if *notifier.borrow() == Paused { notifier.changed().await }`
followed unconditionally by the write. `current` is the state read before the
write; `wakesTo` is the channel's current value at the moment the awoken worker
resumes (the last value sent while it slept). The result is the control-state
value in effect when `write_all` executes. -/
def checkpoint_if (current : TaskStateR) (wakesTo : TaskStateR) : TaskStateR :=
  if current = TaskStateR.paused then wakesTo else current

/-- The pause checkpoint of `download_with_control` in `src/req.rs`
(lines 113-126): `while let Paused = *notifier.borrow() { ... changed().await }`.
`observed` lists the successive values read back after each wake-up. The result
is the state in effect when the worker proceeds to write, or `none` if it is
still suspended after all listed wake-ups. -/
def checkpoint_while (current : TaskStateQ) (observed : List TaskStateQ) : Option TaskStateQ :=
  match current, observed with
  | TaskStateQ.paused, [] => none
  | TaskStateQ.paused, s :: rest => checkpoint_while s rest
  | s, _ => some s

/-- The value of the `Accept-Ranges` header this repository compares against. -/
def bytesVal : List Char := "bytes".data

/-- An `Accept-Ranges` value actually sent by servers without range support. -/
def noneVal : List Char := "none".data

/-- `DownloadError` from `src/libs/request/mod.rs`. -/
inductive ReqError where
  | httpRequest (msg : List Char)
  | ioErr (msg : List Char)
  | rangeNotSupported
  | chunkFailure (msg : List Char)
  | mergeFailure (msg : List Char)
  | joinErr (msg : List Char)
deriving DecidableEq

/-- Display prefix of the non-success-status failure built by `download_chunk`
(`src/libs/request/mod.rs` line 183). -/
def msgInvalidStatus : List Char := "Invalid status code: ".data

/-- The non-success-status failure of `download_chunk`
(`src/libs/request/mod.rs` lines 181-186), as produced for chunk `id` by the
producer closure (lines 61-82): `ChunkFailure("Invalid status code: {status}")`.
The chunk id is used only to notify the merge consumer, never in the error. -/
def download_chunk_status_error (_id : Nat) (status : List Char) : ReqError :=
  ReqError.chunkFailure (msgInvalidStatus ++ status)

/-- `get_total_size` (`src/libs/request/mod.rs` lines 219-229): requires
`Accept-Ranges: bytes`, then reads `Content-Length`, defaulting to 0 when the
header is missing or unparsable (`content_length = none`). -/
def get_total_size (accept_ranges : Option (List Char))
    (content_length : Option Nat) : Except ReqError Nat :=
  match accept_ranges with
  | some v =>
      if v = bytesVal then Except.ok (content_length.getD 0)
      else Except.error ReqError.rangeNotSupported
  | none => Except.error ReqError.rangeNotSupported

/-- The chunk-count selection of `Downloader::new` (`src/libs/mod.rs`
lines 92-102): table lookup when `Accept-Ranges: bytes`, otherwise 1.
`none` models the `unwrap` panicking. -/
def downloader_total_chunk (accept_ranges : Option (List Char))
    (total_size : Nat) : Option Nat :=
  match accept_ranges with
  | some v => if v = bytesVal then libs_total_chunk total_size else some 1
  | none => some 1

/-- The total-size validation of `Downloader::new` (`src/libs/mod.rs`
lines 83-91): `Content-Length` parse failures default to 0, and
`total_size <= 0` is rejected with `InvalidResponse`. -/
def downloader_new_total_size (content_length : Option Nat) : Except LibsError Nat :=
  if content_length.getD 0 = 0 then Except.error LibsError.invalidResponse
  else Except.ok (content_length.getD 0)

/-- Display prefix of the merge accounting failure message
(`src/libs/request/mod.rs` line 125). -/
def msgMissing : List Char := "Missing chunks, expected ".data

/-- Middle part of the merge accounting failure message. -/
def msgGot : List Char := " got ".data

/-- The merge accounting check of the consumer in `download`
(`src/libs/request/mod.rs` lines 117-131): after all merge tasks are joined,
`results.len() != total_chunk` yields a `MergeFailure` naming both counts. -/
def consumer_check (merged total_chunk : Nat) : Except ReqError Unit :=
  if merged ≠ total_chunk then
    Except.error (ReqError.mergeFailure
      (msgMissing ++ (Nat.repr total_chunk).data ++ msgGot ++ (Nat.repr merged).data))
  else Except.ok ()

/-- The server-reported total size as computed by `download_with_control`
(`src/request.rs` lines 70-81): 0 when the HEAD request fails or the
`Content-Length` header is missing or unparsable. -/
def head_total (head_success : Bool) (content_length : Option Nat) : Nat :=
  if head_success then content_length.getD 0 else 0

/-- Observable outcome of one `download_with_control` run: whether it returned
Ok, whether a GET request was issued, how many body bytes were written, and the
destination file's final contents. -/
structure ReqTrace where
  ok : Bool
  getIssued : Bool
  bytesWritten : Nat
  fileAfter : List Nat
deriving DecidableEq

/-- `download_with_control` from `src/request.rs` (lines 55-129), over the
existing destination file's bytes and the probe/GET outcomes: if the local
file length already reaches a positive reported total, return Ok immediately
with no GET; otherwise issue the GET and, on a usable response, append the
streamed body (resume from the current length), else just report and return. -/
def request_download_with_control (file : List Nat) (head_success : Bool)
    (content_length : Option Nat) (get_success : Bool)
    (body : List (List Nat)) : ReqTrace :=
  if head_total head_success content_length ≤ file.length ∧
      0 < head_total head_success content_length then
    ⟨true, false, 0, file⟩
  else if get_success then
    ⟨true, true, (body.map List.length).sum, file ++ body.flatten⟩
  else
    ⟨true, true, 0, file⟩

end SD

namespace SD

/-- Folding append over a list of strings from accumulator `a` concatenates
everything after `a`. -/
theorem foldl_append_eq_flatten (l : List (List Char)) :
    ∀ a : List Char, l.foldl (fun x y => x ++ y) a = a ++ l.flatten := by
  induction l with
  | nil => intro a; simp
  | cons x xs ih =>
      intro a
      simp only [List.foldl_cons, List.flatten_cons, ih, List.append_assoc]

/-- Every member of a list of strings occurs contiguously inside the
concatenation of that list. -/
theorem mem_flatten_parts (x : List Char) (l : List (List Char)) (hx : x ∈ l) :
    ∃ pre post, l.flatten = pre ++ x ++ post := by
  induction l with
  | nil => cases hx
  | cons y ys ih =>
      rcases List.mem_cons.mp hx with hx1 | hx2
      · exact ⟨[], ys.flatten, by rw [hx1]; simp⟩
      · obtain ⟨pre, post, hp⟩ := ih hx2
        exact ⟨y ++ pre, post, by rw [List.flatten_cons, hp]; simp [List.append_assoc]⟩

/-- Every `DownloadError` of `src/libs/mod.rs` renders to a non-empty message. -/
theorem render_ne_nil (e : LibsError) : e.render ≠ [] := by
  have hH : msgHttp ≠ [] := by decide
  have hI : msgInvalid ≠ [] := by decide
  have hO : msgIoPre ≠ [] := by decide
  have hC : msgChunkPre ≠ [] := by decide
  have hF : msgChunkFail ≠ [] := by decide
  have hJ : msgJoinPre ≠ [] := by decide
  cases e with
  | httpRequest m =>
      intro h; exact hH (List.append_eq_nil.mp h).1
  | invalidResponse => exact hI
  | ioErr m =>
      intro h; exact hO (List.append_eq_nil.mp h).1
  | chunkStatus i s =>
      intro h
      exact hC (List.append_eq_nil.mp
        (List.append_eq_nil.mp (List.append_eq_nil.mp h).1).1).1
  | chunkFailure m =>
      intro h; exact hF (List.append_eq_nil.mp h).1
  | joinErr m =>
      intro h; exact hJ (List.append_eq_nil.mp h).1

/-- Running a tracer never changes its recorded total size. -/
theorem Tracer.run_total (ds : List Nat) : ∀ t : Tracer,
    (t.run ds).total_size = t.total_size := by
  induction ds with
  | nil => intro t; rfl
  | cons d rest ih =>
      intro t
      show ((t.update d).run rest).total_size = t.total_size
      rw [ih (t.update d)]; rfl

/-- As long as the accumulated count stays below `2^64`, the tracer's counter
is the plain sum of the deltas. -/
theorem Tracer.run_counter (ds : List Nat) : ∀ t : Tracer,
    t.counter + ds.sum < U64 → (t.run ds).counter = t.counter + ds.sum := by
  induction ds with
  | nil => intro t _; simp [Tracer.run]
  | cons d rest ih =>
      intro t h
      rw [List.sum_cons] at h
      have h1 : t.counter + d < U64 := by omega
      have hcnt : (t.update d).counter = t.counter + d := Nat.mod_eq_of_lt h1
      show ((t.update d).run rest).counter = _
      rw [ih (t.update d) (by rw [hcnt]; omega), hcnt]
      simp only [List.sum_cons]
      omega

/-- C1: the claim requires every planner variant's last range end to be
`total_size - 1`, never `total_size`; but for total 614400 (600 KB, table-derived
chunk count 8) the inline planner of `download` in `src/libs/mod.rs` sets the
last chunk's end to `total_size` itself, while `calculate_chunk_ranges` of
`src/libs/request/mod.rs` correctly yields 614399. -/
theorem C1_libs_last_chunk_end_eval :
    libs_total_chunk 614400 = some 8 ∧
    (libs_chunk_range 614400 (614400 / 8) 8 7).2 = 614400 ∧
    (calculate_chunk_ranges 614400 8).getLast? = some (537600, 614399) := by
  decide

/-- C6: the claim requires the size-to-chunk-count lookup to always succeed and
the result to stay at or below the table ceiling (32); but
`calculate_optimal_chunks` compares with `total_size > size`, so every total of
at most 1 MB (for example 1000) matches no entry and the `unwrap` panics, and
with 64 available CPUs the result 64 exceeds every count in the table. -/
theorem C6_chunk_count_eval :
    optFindMap 1000 OPT_SIZE_TABLE = none ∧
    calculate_optimal_chunks (200 * MB) 64 = some 64 ∧
    (∀ p ∈ OPT_SIZE_TABLE, p.2 ≤ 32) := by
  decide

/-- C2: the claim requires the merge step to copy each staged chunk to its
cumulative offset in ascending index order, making the final file the
concatenation of the chunks; but every merge task of
`src/libs/request/mod.rs` copies its chunk at `stream_position()` of a freshly
opened handle, which is offset 0, so with chunks `[10, 11]` and `[20]` neither
completion order produces the concatenation `[10, 11, 20]`. -/
theorem C2_merge_offset_zero_eval :
    merge_tasks [(0, [10, 11]), (1, [20])] ≠ [10, 11, 20] ∧
    merge_tasks [(1, [20]), (0, [10, 11])] ≠ [10, 11, 20] ∧
    merge_tasks [(1, [20]), (0, [10, 11])] = [10, 11] := by
  decide

/-- C3 counterexample: the claim says the derived percentage is clamped to
`[0, 100]` and never exceeds 100 for every update sequence; but
`Tracer::progress` has no clamp, and deltas 6 and 5 against a total of 10
yield 110. -/
theorem C3_unclamped_counterexample :
    100 < ((Tracer.new 10).run [6, 5]).progress := by decide

/-- C3 amended: `Tracer::progress` is `counter * 100 / total_size` with no
clamping; along any update sequence (with positive total and no `u64`
overflow) it is monotonically non-decreasing, and it stays at most 100 as long
as the accumulated deltas do not exceed `total_size` (sequences whose delta
sum exceeds the total can exceed 100, as the counterexample shows). -/
theorem C3_progress_monotone_bounded (total : Nat) (ds ext : List Nat)
    (htot : 0 < total) (hwrap : (ds.sum + ext.sum) * 100 < U64) :
    ((Tracer.new total).run ds).progress ≤
      ((Tracer.new total).run (ds ++ ext)).progress ∧
    (ds.sum ≤ total → ((Tracer.new total).run ds).progress ≤ 100) := by
  have hsum : ds.sum + ext.sum < U64 := by
    calc ds.sum + ext.sum ≤ (ds.sum + ext.sum) * 100 := by omega
    _ < U64 := hwrap
  have hds : ds.sum < U64 := by omega
  have hc1 : ((Tracer.new total).run ds).counter = ds.sum := by
    have := Tracer.run_counter ds (Tracer.new total) (by simp [Tracer.new]; omega)
    simpa [Tracer.new] using this
  have hc2 : ((Tracer.new total).run (ds ++ ext)).counter = ds.sum + ext.sum := by
    have := Tracer.run_counter (ds ++ ext) (Tracer.new total)
      (by simp [Tracer.new, List.sum_append]; omega)
    simpa [Tracer.new, List.sum_append] using this
  have ht1 : ((Tracer.new total).run ds).total_size = total := by
    rw [Tracer.run_total]; rfl
  have ht2 : ((Tracer.new total).run (ds ++ ext)).total_size = total := by
    rw [Tracer.run_total]; rfl
  have hm1 : ds.sum * 100 % U64 = ds.sum * 100 :=
    Nat.mod_eq_of_lt (by omega)
  have hm2 : (ds.sum + ext.sum) * 100 % U64 = (ds.sum + ext.sum) * 100 :=
    Nat.mod_eq_of_lt hwrap
  constructor
  · show _ % _ / _ ≤ _ % _ / _
    rw [hc1, hc2, ht1, ht2, hm1, hm2]
    exact Nat.div_le_div_right (Nat.mul_le_mul_right 100 (by omega))
  · intro hle
    show _ % _ / _ ≤ 100
    rw [hc1, ht1, hm1]
    calc ds.sum * 100 / total ≤ total * 100 / total :=
          Nat.div_le_div_right (Nat.mul_le_mul_right 100 hle)
    _ = 100 := by rw [Nat.mul_comm]; exact Nat.mul_div_cancel 100 htot

/-- C3 witness: the amended statement applied to total 10 with deltas `[3]`
then `[4]`. -/
theorem C3_progress_monotone_bounded_witness :
    (0 < 10 ∧ (([3] : List Nat).sum + ([4] : List Nat).sum) * 100 < U64) ∧
    (((Tracer.new 10).run [3]).progress ≤
        ((Tracer.new 10).run ([3] ++ [4])).progress ∧
      (([3] : List Nat).sum ≤ 10 → ((Tracer.new 10).run [3]).progress ≤ 100)) :=
  ⟨⟨by decide, by decide⟩,
   C3_progress_monotone_bounded 10 [3] [4] (by decide) (by decide)⟩

/-- C4 counterexample: the claim says the aggregated error names every failed
chunk's index; but a mid-stream failure in the worker of `src/libs/mod.rs` is
propagated as `HttpRequest(e)` with no index, so a run where chunk 0 failed and
a run where chunk 5 failed produce the identical aggregated error, and
`download_chunk` of `src/libs/request/mod.rs` likewise formats a non-success
status as `Invalid status code: ...` with no index. -/
theorem C4_no_index_counterexample :
    libs_worker_stream_error 0 ("timeout".data) =
      libs_worker_stream_error 5 ("timeout".data) ∧
    libs_download_result [some (libs_worker_stream_error 0 ("timeout".data))] =
      libs_download_result [some (libs_worker_stream_error 5 ("timeout".data))] ∧
    download_chunk_status_error 0 ("404 Not Found".data) =
      download_chunk_status_error 5 ("404 Not Found".data) :=
  ⟨rfl, rfl, rfl⟩

/-- C4 amended: the orchestrator of `src/libs/mod.rs` collects every worker
outcome (the whole result list is consumed, with no short-circuit) and,
whenever the failure set is non-empty, returns exactly one aggregated
`ChunkFailure` whose message contains every failure's rendered cause; the
failed chunk's index is named for non-success-status failures (a
`ChunkStatus i status` contributes the text tab, `Chunk i failed: status`),
while mid-stream `HttpRequest`/`IO` failures carry no index (see the
counterexample). -/
theorem C4_aggregated_failures (rs : List (Option LibsError))
    (h : rs.filterMap id ≠ []) :
    ∃ s, libs_download_result rs = Except.error (LibsError.chunkFailure s) ∧
      (∀ e ∈ rs.filterMap id, ∃ pre post, s = pre ++ e.render ++ post) ∧
      ∀ i st, LibsError.chunkStatus i st ∈ rs.filterMap id →
        ∃ pre post,
          s = pre ++ (msgChunkPre ++ (Nat.repr i).data ++ msgChunkMid ++ st) ++ post := by
  have hjoin : collect_errors rs = ((rs.filterMap id).map LibsError.render).flatten := by
    unfold collect_errors
    rw [foldl_append_eq_flatten]
    simp
  have hne : collect_errors rs ≠ [] := by
    rw [hjoin]
    cases hfm : rs.filterMap id with
    | nil => exact absurd hfm h
    | cons x xs =>
        simp only [List.map_cons, List.flatten_cons]
        intro hcontra
        exact render_ne_nil x (List.append_eq_nil.mp hcontra).1
  have hmain : ∀ e ∈ rs.filterMap id,
      ∃ pre post, collect_errors rs = pre ++ e.render ++ post := by
    intro e he
    obtain ⟨pre, post, hp⟩ :=
      mem_flatten_parts e.render ((rs.filterMap id).map LibsError.render)
        (List.mem_map_of_mem LibsError.render he)
    exact ⟨pre, post, hjoin.trans hp⟩
  refine ⟨collect_errors rs, ?_, hmain, ?_⟩
  · unfold libs_download_result
    rw [if_neg hne]
  · intro i st hmem
    exact hmain (LibsError.chunkStatus i st) hmem

/-- C4 witness: one worker succeeds and chunk 2 fails with status
`404 Not Found`; the aggregated error contains that chunk's message, naming
its index and status. -/
theorem C4_aggregated_failures_witness :
    ([none, some (LibsError.chunkStatus 2 ("404 Not Found".data))].filterMap
        (id : Option LibsError → Option LibsError) ≠ []) ∧
    (∃ s, libs_download_result
        [none, some (LibsError.chunkStatus 2 ("404 Not Found".data))] =
          Except.error (LibsError.chunkFailure s) ∧
      (∀ e ∈ [none, some (LibsError.chunkStatus 2 ("404 Not Found".data))].filterMap
          (id : Option LibsError → Option LibsError),
        ∃ pre post, s = pre ++ e.render ++ post) ∧
      ∀ i st, LibsError.chunkStatus i st ∈
          [none, some (LibsError.chunkStatus 2 ("404 Not Found".data))].filterMap
            (id : Option LibsError → Option LibsError) →
        ∃ pre post,
          s = pre ++ (msgChunkPre ++ (Nat.repr i).data ++ msgChunkMid ++ st) ++ post) :=
  ⟨by decide,
   C4_aggregated_failures [none, some (LibsError.chunkStatus 2 ("404 Not Found".data))]
     (by decide)⟩

/-- C5: the claim says a woken worker re-reads the state and stays suspended
across a Paused-Running-Paused toggle delivered before it resumes; but the
checkpoint of `src/request.rs` is an `if` with a single `changed()` await, so
after that toggle it proceeds to write while the current state is still
`Paused`, whereas the `while` checkpoint of `src/req.rs` re-reads `Paused` and
remains suspended. -/
theorem C5_pause_recheck_eval :
    checkpoint_if TaskStateR.paused TaskStateR.paused = TaskStateR.paused ∧
    checkpoint_while TaskStateQ.paused [TaskStateQ.paused] = none := by
  exact ⟨rfl, rfl⟩

/-- C7 counterexample: the claim says a missing `Accept-Ranges: bytes` header
degrades the download to a single chunk rather than failing; but
`get_total_size` in `src/libs/request/mod.rs` makes that path fail with
`RangeNotSupported` (here on a response with no `Accept-Ranges` header and
`Content-Length` 1000). -/
theorem C7_range_unsupported_fails :
    ¬ ∃ n, get_total_size none (some 1000) = Except.ok n := by
  rintro ⟨n, h⟩
  exact Except.noConfusion h

/-- C7 amended: when the server does not advertise `Accept-Ranges: bytes`
(header absent or carrying another value), `Downloader::new` in
`src/libs/mod.rs` plans exactly one chunk for every total size, while the
`download` path of `src/libs/request/mod.rs` instead fails with
`RangeNotSupported`. -/
theorem C7_single_chunk_amended (total_size : Nat) (v : List Char)
    (h : v ≠ bytesVal) :
    downloader_total_chunk none total_size = some 1 ∧
    downloader_total_chunk (some v) total_size = some 1 ∧
    get_total_size none (some total_size) = Except.error ReqError.rangeNotSupported ∧
    get_total_size (some v) (some total_size) = Except.error ReqError.rangeNotSupported := by
  refine ⟨rfl, ?_, rfl, ?_⟩
  · show (if v = bytesVal then libs_total_chunk total_size else some 1) = some 1
    rw [if_neg h]
  · show (if v = bytesVal then Except.ok ((some total_size).getD 0)
      else Except.error ReqError.rangeNotSupported) = _
    rw [if_neg h]

/-- C7 witness: the amended statement at total 500 with `Accept-Ranges: none`. -/
theorem C7_single_chunk_amended_witness :
    (noneVal ≠ bytesVal) ∧
    (downloader_total_chunk none 500 = some 1 ∧
     downloader_total_chunk (some noneVal) 500 = some 1 ∧
     get_total_size none (some 500) = Except.error ReqError.rangeNotSupported ∧
     get_total_size (some noneVal) (some 500) = Except.error ReqError.rangeNotSupported) :=
  ⟨by decide, C7_single_chunk_amended 500 noneVal (by decide)⟩

/-- C8: the claim says a response with no usable size fails with
`InvalidResponse` before chunk work and no task ever has `total_size = 0`;
`Downloader::new` in `src/libs/mod.rs` does exactly that, but `get_total_size`
in `src/libs/request/mod.rs` accepts a missing or zero `Content-Length` as
`Ok 0` (with `Accept-Ranges: bytes`), and `download` then proceeds into
`calculate_optimal_chunks(0)`, whose lookup finds no entry and panics. -/
theorem C8_zero_size_accepted_eval :
    get_total_size (some bytesVal) none = Except.ok 0 ∧
    get_total_size (some bytesVal) (some 0) = Except.ok 0 ∧
    optFindMap 0 OPT_SIZE_TABLE = none ∧
    downloader_new_total_size none = Except.error LibsError.invalidResponse ∧
    downloader_new_total_size (some 0) = Except.error LibsError.invalidResponse := by
  refine ⟨?_, ?_, by decide, rfl, rfl⟩ <;> rfl

/-- C9: the consumer of `src/libs/request/mod.rs` declares success only when
the number of merged chunks equals the planned chunk count; any mismatch
yields a `MergeFailure` whose message names the expected and actual counts,
and a `MergeFailure` is never equal to a fetch-side `ChunkFailure`. -/
theorem C9_merge_accounting (merged total_chunk : Nat)
    (h : merged ≠ total_chunk) :
    consumer_check merged total_chunk = Except.error (ReqError.mergeFailure
      (msgMissing ++ (Nat.repr total_chunk).data ++ msgGot ++ (Nat.repr merged).data)) ∧
    (∀ m k, consumer_check m k = Except.ok () ↔ m = k) ∧
    (∀ s1 s2, ReqError.mergeFailure s1 ≠ ReqError.chunkFailure s2) := by
  refine ⟨?_, ?_, ?_⟩
  · unfold consumer_check
    rw [if_pos h]
  · intro m k
    constructor
    · intro hok
      by_contra hne
      unfold consumer_check at hok
      rw [if_pos hne] at hok
      exact Except.noConfusion hok
    · intro hmk
      unfold consumer_check
      rw [if_neg (by omega : ¬ m ≠ k)]
  · intro s1 s2 hcontra
    exact ReqError.noConfusion hcontra

/-- C9 witness: one of two planned chunks was merged. -/
theorem C9_merge_accounting_witness :
    ((1 : Nat) ≠ 2) ∧
    (consumer_check 1 2 = Except.error (ReqError.mergeFailure
        (msgMissing ++ (Nat.repr 2).data ++ msgGot ++ (Nat.repr 1).data)) ∧
      (∀ m k, consumer_check m k = Except.ok () ↔ m = k) ∧
      (∀ s1 s2, ReqError.mergeFailure s1 ≠ ReqError.chunkFailure s2)) :=
  ⟨by decide, C9_merge_accounting 1 2 (by decide)⟩

/-- C10: if the destination file's length already reaches a positive
server-reported total, `download_with_control` of `src/request.rs` returns Ok
at once: no GET request is issued, no bytes are written, and the file is left
exactly as it was. -/
theorem C10_skip_existing_complete (file : List Nat) (head_success : Bool)
    (content_length : Option Nat) (get_success : Bool) (body : List (List Nat))
    (hlen : head_total head_success content_length ≤ file.length)
    (hpos : 0 < head_total head_success content_length) :
    request_download_with_control file head_success content_length get_success body =
      ⟨true, false, 0, file⟩ := by
  unfold request_download_with_control
  rw [if_pos ⟨hlen, hpos⟩]

/-- C10 witness: a 3-byte file with a reported total of 3 skips the GET and
keeps its contents. -/
theorem C10_skip_existing_complete_witness :
    (head_total true (some 3) ≤ ([7, 7, 7] : List Nat).length ∧
      0 < head_total true (some 3)) ∧
    request_download_with_control [7, 7, 7] true (some 3) true [[1, 2]] =
      ⟨true, false, 0, [7, 7, 7]⟩ :=
  ⟨⟨by decide, by decide⟩,
   C10_skip_existing_complete [7, 7, 7] true (some 3) true [[1, 2]]
     (by decide) (by decide)⟩

end SD
